import Mathlib

/-!
Shallow embedding of the 2D physics engine (src/src/physics/{bodies,collisions,mod}.rs).
Machine floats (f64) are modelled as real numbers; nalgebra Vector2/Point2 both
become Vec2. Rust float comparisons become real comparisons (decided
classically), and f64::sqrt becomes Real.sqrt.
-/

/-- A 2D vector over the reals, standing for nalgebra Vector2 and Point2 of f64. -/
structure Vec2 where
  x : Real
  y : Real

noncomputable instance : Add Vec2 := ⟨fun a b => ⟨a.x + b.x, a.y + b.y⟩⟩
noncomputable instance : Sub Vec2 := ⟨fun a b => ⟨a.x - b.x, a.y - b.y⟩⟩
noncomputable instance : HMul Vec2 Real Vec2 := ⟨fun v s => ⟨v.x * s, v.y * s⟩⟩
noncomputable instance : HDiv Vec2 Real Vec2 := ⟨fun v s => ⟨v.x / s, v.y / s⟩⟩

/-- The zero vector, standing for Vector2::zeros and Vector2::new of 0.0 and 0.0. -/
def Vec2.zero : Vec2 := ⟨0, 0⟩

/-- Dot product of two vectors. -/
noncomputable def Vec2.dot (a b : Vec2) : Real := a.x * b.x + a.y * b.y

/-- Squared Euclidean norm, standing for nalgebra norm_squared. -/
noncomputable def Vec2.norm_squared (v : Vec2) : Real := v.x * v.x + v.y * v.y

/-- Euclidean norm, standing for nalgebra norm. -/
noncomputable def Vec2.norm (v : Vec2) : Real := Real.sqrt v.norm_squared

/-- Rust f64::signum restricted to the reals: 1 for non-negative input
(f64 gives 1.0 on plus zero, and minus zero has no real counterpart),
and -1 for negative input. -/
noncomputable def signum (x : Real) : Real := if x < 0 then -1 else 1

/-- Rust f64::clamp restricted to the reals (the panicking lo > hi case of
Rust never arises at the call sites the claims touch). -/
noncomputable def clampR (x lo hi : Real) : Real :=
  if x < lo then lo else if x > hi then hi else x

/-- The shape of a body (bodies.rs, enum Shape). -/
inductive Shape where
  | circle (radius : Real)
  | rectangle (width height : Real)

/-- Material properties (bodies.rs, struct Material). -/
structure Material where
  density : Real
  restitution : Real
  friction : Real

/-- Material::new. -/
noncomputable def Material.new (density restitution friction : Real) : Material :=
  ⟨density, restitution, friction⟩

/-- The kind of body (bodies.rs, enum BodyType). -/
inductive BodyType where
  | static
  | dynamic
deriving DecidableEq

/-- A physical body (bodies.rs, struct Body). -/
structure Body where
  position : Vec2
  velocity : Vec2
  acceleration : Vec2
  mass : Real
  shape : Shape
  material : Material
  body_type : BodyType
  force : Vec2

instance : Inhabited Body :=
  ⟨⟨Vec2.zero, Vec2.zero, Vec2.zero, 0, Shape.circle 0, ⟨0, 0, 0⟩, BodyType.static, Vec2.zero⟩⟩

/-- Body::new: mass is derived from the shape and the material density;
no validation is performed on dimensions or density. -/
noncomputable def Body.new (position : Vec2) (shape : Shape) (material : Material)
    (body_type : BodyType) : Body :=
  let mass := match shape with
    | Shape.circle radius => Real.pi * radius * radius * material.density
    | Shape.rectangle width height => width * height * material.density
  { position := position, velocity := Vec2.zero, acceleration := Vec2.zero,
    mass := mass, shape := shape, material := material, body_type := body_type,
    force := Vec2.zero }

/-- Body::new_circle. -/
noncomputable def Body.new_circle (position : Vec2) (radius : Real) (material : Material)
    (body_type : BodyType) : Body :=
  Body.new position (Shape.circle radius) material body_type

/-- Body::new_rectangle. -/
noncomputable def Body.new_rectangle (position : Vec2) (width height : Real)
    (material : Material) (body_type : BodyType) : Body :=
  Body.new position (Shape.rectangle width height) material body_type

/-- Body::apply_force: accumulates the force, no-op for a static body. -/
noncomputable def Body.apply_force (b : Body) (force_to_apply : Vec2) : Body :=
  match b.body_type with
  | BodyType.dynamic => { b with force := b.force + force_to_apply }
  | BodyType.static => b

/-- Body::update: semi-implicit Euler integration; early return for a static
body; the force accumulator is not cleared here. -/
noncomputable def Body.update (b : Body) (dt : Real) : Body :=
  if b.body_type = BodyType.static then b
  else
    let acceleration := b.force / b.mass
    let velocity := b.velocity + acceleration * dt
    let position := b.position + velocity * dt
    { b with acceleration := acceleration, velocity := velocity, position := position }

/-- A collision record (collisions.rs, struct Collision). The source comment
on the normal field reads: pointing from body_a to body_b. -/
structure Collision where
  body_a : Nat
  body_b : Nat
  normal : Vec2

/-- The physics world (mod.rs, struct World). -/
structure World where
  bodies : List Body
  gravity : Vec2

/-- World::new with the default downward gravity. -/
noncomputable def World.new : World := ⟨[], ⟨0, -9.81⟩⟩

/-- World::add_body. -/
noncomputable def World.add_body (w : World) (body : Body) : World :=
  { w with bodies := w.bodies ++ [body] }

/-- The 1e-10 threshold of the circle-circle branch of check_collision. -/
noncomputable def distance_epsilon : Real := 1 / 10 ^ 10

/-- The 1e-12 threshold of calculate_circle_rectangle_collision. -/
noncomputable def distance_sq_epsilon : Real := 1 / 10 ^ 12

/-- The 1e-7 tangential-speed tolerance of resolve_collisions. -/
noncomputable def friction_tolerance : Real := 1 / 10 ^ 7

/-- Helper for Circle-Rectangle collision (collisions.rs,
calculate_circle_rectangle_collision): the circle center is clamped into the
half extents of the rectangle; the normal points from the closest point on
the rectangle towards the circle center. -/
noncomputable def calculate_circle_rectangle_collision (circle_body rect_body : Body)
    (circle_idx rect_idx : Nat) (radius width height : Real) : Option Collision :=
  let circle_center := circle_body.position
  let rect_center := rect_body.position
  let half_extents : Vec2 := ⟨width / 2, height / 2⟩
  let delta := circle_center - rect_center
  let clamped_x := clampR delta.x (-half_extents.x) half_extents.x
  let clamped_y := clampR delta.y (-half_extents.y) half_extents.y
  let closest_point := rect_center + (⟨clamped_x, clamped_y⟩ : Vec2)
  let collision_vector := circle_center - closest_point
  let distance_sq := collision_vector.norm_squared
  let radius_sq := radius * radius
  if distance_sq < radius_sq ∧ distance_sq > distance_sq_epsilon then
    let distance := Real.sqrt distance_sq
    let normal := collision_vector / distance
    some { body_a := circle_idx, body_b := rect_idx, normal := normal }
  else
    none

/-- The body of check_collision after its initial reordering: the dispatch on
the shape pair of body1 (the lower index idx1) and body2 (the higher idx2). -/
noncomputable def check_collision_ordered (body1 body2 : Body) (idx1 idx2 : Nat) :
    Option Collision :=
  match body1.shape, body2.shape with
  | Shape.circle r1, Shape.circle r2 =>
    let diff := body2.position - body1.position
    let distance := diff.norm
    let min_distance := r1 + r2
    if distance < min_distance ∧ distance > distance_epsilon then
      some { body_a := idx1, body_b := idx2, normal := diff / distance }
    else
      none
  | Shape.rectangle w1 h1, Shape.rectangle w2 h2 =>
    let half_size1 : Vec2 := ⟨w1 / 2, h1 / 2⟩
    let half_size2 : Vec2 := ⟨w2 / 2, h2 / 2⟩
    let diff := body2.position - body1.position
    let abs_diff : Vec2 := ⟨|diff.x|, |diff.y|⟩
    let overlap := half_size1 + half_size2 - abs_diff
    if overlap.x > 0 ∧ overlap.y > 0 then
      let normal : Vec2 :=
        if overlap.x < overlap.y then ⟨signum diff.x, 0⟩ else ⟨0, signum diff.y⟩
      some { body_a := idx1, body_b := idx2, normal := normal }
    else
      none
  | Shape.circle radius, Shape.rectangle width height =>
    calculate_circle_rectangle_collision body1 body2 idx1 idx2 radius width height
  | Shape.rectangle width height, Shape.circle radius =>
    (calculate_circle_rectangle_collision body2 body1 idx2 idx1 radius width height).map
      fun c => { c with body_a := idx1, body_b := idx2 }

/-- check_collision (collisions.rs): the source first swaps the arguments so
the lower index comes first (the tuple let of lines 42 to 46, written here as
an if around the ordered dispatch), then dispatches on the shape pair. -/
noncomputable def check_collision (body_a body_b : Body) (index_a index_b : Nat) :
    Option Collision :=
  if index_a < index_b then check_collision_ordered body_a body_b index_a index_b
  else check_collision_ordered body_b body_a index_b index_a

/-- detect_collisions (collisions.rs): every pair i < j, skipping pairs where
both bodies are static. -/
noncomputable def detect_collisions (bodies : List Body) : List Collision :=
  (((List.range bodies.length).map fun i =>
    ((List.range bodies.length).filter fun j => i < j).filterMap fun j =>
      let body_a := bodies.getD i default
      let body_b := bodies.getD j default
      if body_a.body_type = BodyType.static ∧ body_b.body_type = BodyType.static then
        none
      else
        check_collision body_a body_b i j)).flatten

/-- The velocity changes of one record of resolve_collisions (collisions.rs,
lines 164 to 238), as a function of the two fetched bodies and the normal:
the pair of final velocities of body_a and body_b after the normal impulse
and the friction impulse. The continue statements of the source (separating
contact, zero total inverse mass) leave both velocities unchanged and are
modelled by returning them unchanged. -/
noncomputable def resolved_velocities (body_a body_b : Body) (normal : Vec2) : Vec2 × Vec2 :=
  let relative_velocity := body_b.velocity - body_a.velocity
  let velocity_along_normal := relative_velocity.dot normal
  if velocity_along_normal > 0 then
    (body_a.velocity, body_b.velocity)
  else
    let restitution := (body_a.material.restitution + body_b.material.restitution) / 2
    let inv_mass_a := if body_a.body_type = BodyType.static then 0 else 1 / body_a.mass
    let inv_mass_b := if body_b.body_type = BodyType.static then 0 else 1 / body_b.mass
    let total_inv_mass := inv_mass_a + inv_mass_b
    if total_inv_mass = 0 then
      (body_a.velocity, body_b.velocity)
    else
      let j := -(1 + restitution) * velocity_along_normal
      let impulse_scalar := j / total_inv_mass
      let impulse := normal * impulse_scalar
      let va1 := if body_a.body_type = BodyType.dynamic then
          body_a.velocity - impulse * inv_mass_a else body_a.velocity
      let vb1 := if body_b.body_type = BodyType.dynamic then
          body_b.velocity + impulse * inv_mass_b else body_b.velocity
      let relative_velocity_friction := vb1 - va1
      let velocity_normal_comp :=
        normal * (relative_velocity_friction.dot normal)
      let velocity_tangent_comp := relative_velocity_friction - velocity_normal_comp
      let tangential_speed := velocity_tangent_comp.norm
      if tangential_speed > friction_tolerance then
        let tangent_direction := velocity_tangent_comp / tangential_speed
        let jt := -tangential_speed / total_inv_mass
        let mu_static := (body_a.material.friction + body_b.material.friction) / 2
        let max_friction_impulse := mu_static * |impulse_scalar|
        let friction_impulse_scalar :=
          clampR jt (-max_friction_impulse) max_friction_impulse
        let friction_impulse := tangent_direction * friction_impulse_scalar
        ((if body_a.body_type = BodyType.dynamic then
            va1 - friction_impulse * inv_mass_a else va1),
         (if body_b.body_type = BodyType.dynamic then
            vb1 + friction_impulse * inv_mass_b else vb1))
      else
        (va1, vb1)

/-- One iteration of the loop body of resolve_collisions: fetches the two
bodies of the record, skips a static-static pair, computes the final
velocities and writes them back. The split_at_mut fetch of the source is
modelled by list indexing with a default; a skipped impulse leaves a
velocity unchanged, so writing the unchanged velocity back models the
source's continue exactly. -/
noncomputable def resolve_one (bodies : List Body) (collision : Collision) : List Body :=
  let body_a := bodies.getD collision.body_a default
  let body_b := bodies.getD collision.body_b default
  if body_a.body_type = BodyType.static ∧ body_b.body_type = BodyType.static then
    bodies
  else
    let final_velocities := resolved_velocities body_a body_b collision.normal
    (bodies.set collision.body_a { body_a with velocity := final_velocities.1 }).set
      collision.body_b { body_b with velocity := final_velocities.2 }

/-- resolve_collisions (collisions.rs): the for loop over the records. -/
noncomputable def resolve_collisions (world : World) (collisions : List Collision) : World :=
  { world with bodies := collisions.foldl resolve_one world.bodies }

/-- The solver loop of World::update: up to the given number of iterations,
each one detecting against the current state and stopping as soon as a pass
finds no contacts. -/
noncomputable def World.solverLoop : Nat → World → World
  | 0, w => w
  | Nat.succ n, w =>
    let collisions := detect_collisions w.bodies
    if collisions.isEmpty then w
    else World.solverLoop n (resolve_collisions w collisions)

/-- World::update (mod.rs): reset forces, apply gravity to dynamic bodies,
integrate every body, then up to 10 solver iterations. -/
noncomputable def World.update (w : World) (dt : Real) : World :=
  let bodies1 := w.bodies.map fun b => { b with force := Vec2.zero }
  let bodies2 := bodies1.map fun b =>
    if b.body_type = BodyType.dynamic then b.apply_force (w.gravity * b.mass) else b
  let bodies3 := bodies2.map fun b => b.update dt
  World.solverLoop 10 { bodies := bodies3, gravity := w.gravity }

/-- Operations the environment can perform on a world, for the static-body
invariance claim: an apply_force on one body, a direct integration step on
one body, or a whole World::update tick. -/
inductive WorldOp where
  | applyForce : Nat → Vec2 → WorldOp
  | integrate : Nat → Real → WorldOp
  | tick : Real → WorldOp

/-- Runs one operation on the world. -/
noncomputable def WorldOp.run (w : World) : WorldOp → World
  | WorldOp.applyForce i f =>
    { w with bodies := w.bodies.set i ((w.bodies.getD i default).apply_force f) }
  | WorldOp.integrate i dt =>
    { w with bodies := w.bodies.set i ((w.bodies.getD i default).update dt) }
  | WorldOp.tick dt => w.update dt

/-- Runs a sequence of operations on the world. -/
noncomputable def runOps (w : World) (ops : List WorldOp) : World :=
  ops.foldl WorldOp.run w

/-- Modelled from the claim wording of C5, phase by phase: (a) zero every
force accumulator; (b) add gravity times mass to the force of every dynamic
body and nothing to a static body; (c) integrate every body; (d) the bounded
solver loop below. -/
noncomputable def World.solver_iterations_spec : Nat → World → World
  | 0, w => w
  | Nat.succ n, w =>
    if (detect_collisions w.bodies).isEmpty then w
    else World.solver_iterations_spec n (resolve_collisions w (detect_collisions w.bodies))

/-- The specification-side description of World::update used to state claim C5. -/
noncomputable def World.update_spec (w : World) (dt : Real) : World :=
  let cleared := w.bodies.map fun b => { b with force := Vec2.zero }
  let with_gravity := cleared.map fun b =>
    match b.body_type with
    | BodyType.dynamic => { b with force := b.force + w.gravity * b.mass }
    | BodyType.static => b
  let integrated := with_gravity.map fun b => b.update dt
  World.solver_iterations_spec 10 { bodies := integrated, gravity := w.gravity }

theorem Vec2.add_x (a b : Vec2) : (a + b).x = a.x + b.x := rfl

theorem Vec2.add_y (a b : Vec2) : (a + b).y = a.y + b.y := rfl

theorem Vec2.sub_x (a b : Vec2) : (a - b).x = a.x - b.x := rfl

theorem Vec2.sub_y (a b : Vec2) : (a - b).y = a.y - b.y := rfl

theorem Vec2.mul_x (a : Vec2) (s : Real) : (a * s).x = a.x * s := rfl

theorem Vec2.mul_y (a : Vec2) (s : Real) : (a * s).y = a.y * s := rfl

theorem Vec2.div_x (a : Vec2) (s : Real) : (a / s).x = a.x / s := rfl

theorem Vec2.div_y (a : Vec2) (s : Real) : (a / s).y = a.y / s := rfl

theorem List.set_getD_self (l : List α) (i : Nat) (d : α) : l.set i (l.getD i d) = l := by
  ext1 j
  rw [List.getElem?_set]
  split
  case isTrue h =>
    subst h
    split
    case isTrue h2 => rw [List.getD_eq_getElem?_getD, List.getElem?_eq_getElem h2]; rfl
    case isFalse h2 => rw [List.getElem?_eq_none (by omega)]
  case isFalse h => rfl

/-- Claim C6: the integration step of a dynamic body sets acceleration to
force over mass, then velocity from the new acceleration, then position from
the updated velocity (semi-implicit Euler), leaves the force accumulator
untouched, and changes nothing on a static body. -/
theorem c6_integration_step (b : Body) (dt : Real) :
    (b.body_type = BodyType.static → b.update dt = b) ∧
    (b.body_type = BodyType.dynamic →
      (b.update dt).acceleration = b.force / b.mass ∧
      (b.update dt).velocity = b.velocity + (b.force / b.mass) * dt ∧
      (b.update dt).position = b.position + (b.update dt).velocity * dt ∧
      (b.update dt).force = b.force) := by
  constructor
  · intro h
    simp [Body.update, h]
  · intro h
    simp [Body.update, h]

/-- Claim C2, counterexample: the constructor performs no validation and is
total (in the source it returns Self, not a Result), so a rectangle of width
-2, height 3 and density 1 is accepted and yields a body of mass -6 instead
of an InvalidShape error. -/
theorem c2_counterexample :
    (Body.new ⟨0, 0⟩ (Shape.rectangle (-2) 3) (Material.new 1 0 0) BodyType.dynamic).mass
      = -6 := by
  simp [Body.new, Material.new]
  norm_num

/-- Claim C2 as amended: Body::new and Material::new reject nothing; the mass
is always the raw area formula times density, and on the non-positive input
class the constructed body has non-positive mass rather than being refused. -/
theorem c2_no_validation (p : Vec2) (w h d e f r : Real) (bt : BodyType) :
    (Body.new p (Shape.rectangle w h) (Material.new d e f) bt).mass = w * h * d ∧
    (Body.new p (Shape.circle r) (Material.new d e f) bt).mass = Real.pi * r * r * d ∧
    (w ≤ 0 → 0 ≤ h → 0 ≤ d →
      (Body.new p (Shape.rectangle w h) (Material.new d e f) bt).mass ≤ 0) := by
  refine ⟨rfl, rfl, ?_⟩
  intro hw hh hd
  show w * h * d ≤ 0
  have : w * h ≤ 0 := mul_nonpos_of_nonpos_of_nonneg hw hh
  exact mul_nonpos_of_nonpos_of_nonneg this hd

theorem solverLoop_eq_spec (n : Nat) : ∀ w : World,
    World.solverLoop n w = World.solver_iterations_spec n w := by
  induction n with
  | zero => intro w; rfl
  | succ n ih =>
    intro w
    rw [World.solverLoop, World.solver_iterations_spec]
    by_cases h : (detect_collisions w.bodies).isEmpty
    · simp [h]
    · simp [h, ih]

/-- Claim C5: World::update performs, in order, force clearing, gravity
application to dynamic bodies only, integration of every body, and at most
10 detect-and-resolve iterations with an early exit on an empty detection
pass; this is exactly the phase decomposition written out in
World.update_spec. -/
theorem c5_update_phases (w : World) (dt : Real) :
    World.update w dt = World.update_spec w dt := by
  simp only [World.update, World.update_spec]
  have hmap : ∀ b : Body,
      (if b.body_type = BodyType.dynamic then b.apply_force (w.gravity * b.mass) else b)
        = match b.body_type with
          | BodyType.dynamic => { b with force := b.force + w.gravity * b.mass }
          | BodyType.static => b := by
    intro b
    cases hb : b.body_type
    case static => simp [hb]
    case dynamic => simp [hb, Body.apply_force]
  simp only [hmap]
  exact solverLoop_eq_spec 10 _

theorem Body.apply_force_static (b : Body) (f : Vec2)
    (h : b.body_type = BodyType.static) : b.apply_force f = b := by
  simp [Body.apply_force, h]

theorem Body.update_static (b : Body) (dt : Real)
    (h : b.body_type = BodyType.static) : b.update dt = b := by
  simp [Body.update, h]

theorem resolved_velocities_fst_static (a b : Body) (n : Vec2)
    (h : a.body_type = BodyType.static) : (resolved_velocities a b n).1 = a.velocity := by
  simp [resolved_velocities, h, apply_ite Prod.fst]

theorem resolved_velocities_snd_static (a b : Body) (n : Vec2)
    (h : b.body_type = BodyType.static) : (resolved_velocities a b n).2 = b.velocity := by
  simp [resolved_velocities, h, apply_ite Prod.snd]

theorem resolve_one_getElem_static (bodies : List Body) (c : Collision) (i : Nat) (b : Body)
    (hb : bodies[i]? = some b) (hs : b.body_type = BodyType.static) :
    (resolve_one bodies c)[i]? = some b := by
  have hlen : i < bodies.length := (List.getElem?_eq_some.mp hb).1
  have hgd : bodies.getD i default = b := by
    rw [List.getD_eq_getElem?_getD, hb]; rfl
  simp only [resolve_one]
  split
  · exact hb
  by_cases hB : c.body_b = i
  · rw [hB, hgd, List.getElem?_set_self (by simpa using hlen)]
    rw [resolved_velocities_snd_static _ _ _ hs]
  · rw [List.getElem?_set_ne hB]
    by_cases hA : c.body_a = i
    · rw [hA, hgd, List.getElem?_set_self hlen]
      rw [resolved_velocities_fst_static _ _ _ hs]
    · rw [List.getElem?_set_ne hA]
      exact hb

theorem foldl_resolve_one_getElem_static (cs : List Collision) :
    ∀ (l : List Body) (i : Nat) (b : Body), l[i]? = some b →
      b.body_type = BodyType.static → (cs.foldl resolve_one l)[i]? = some b := by
  induction cs with
  | nil => intro l i b hb _; simpa using hb
  | cons c cs ih =>
    intro l i b hb hs
    rw [List.foldl_cons]
    exact ih _ i b (resolve_one_getElem_static l c i b hb hs) hs

theorem resolve_collisions_getElem_static (w : World) (cs : List Collision) (i : Nat)
    (b : Body) (hb : w.bodies[i]? = some b) (hs : b.body_type = BodyType.static) :
    (resolve_collisions w cs).bodies[i]? = some b :=
  foldl_resolve_one_getElem_static cs w.bodies i b hb hs

theorem solverLoop_getElem_static (n : Nat) : ∀ (w : World) (i : Nat) (b : Body),
    w.bodies[i]? = some b → b.body_type = BodyType.static →
    (World.solverLoop n w).bodies[i]? = some b := by
  induction n with
  | zero => intro w i b hb _; exact hb
  | succ n ih =>
    intro w i b hb hs
    rw [World.solverLoop]
    by_cases h : (detect_collisions w.bodies).isEmpty
    · simp only [h, if_true]
      exact hb
    · simp only [h, if_false]
      exact ih _ i b (resolve_collisions_getElem_static w _ i b hb hs) hs

theorem update_getElem_static (w : World) (dt : Real) (i : Nat) (b : Body)
    (hb : w.bodies[i]? = some b) (hs : b.body_type = BodyType.static) :
    (w.update dt).bodies[i]? = some { b with force := Vec2.zero } := by
  simp only [World.update]
  apply solverLoop_getElem_static
  · simp only [List.getElem?_map, hb, Option.map_some, Option.map_some']
    have h1 : ¬ (({ b with force := Vec2.zero } : Body).body_type = BodyType.dynamic) := by
      show ¬ (b.body_type = BodyType.dynamic)
      rw [hs]
      exact fun hcon => BodyType.noConfusion hcon
    rw [if_neg h1]
    exact congrArg some (Body.update_static _ _ hs)
  · exact hs

theorem runOps_getElem_static (ops : List WorldOp) : ∀ (w : World) (i : Nat) (b : Body),
    w.bodies[i]? = some b → b.body_type = BodyType.static →
    ∃ fr, (runOps w ops).bodies[i]? = some { b with force := fr } := by
  induction ops with
  | nil =>
    intro w i b hb _
    exact ⟨b.force, by simpa [runOps] using hb⟩
  | cons op ops ih =>
    intro w i b hb hs
    have hstep : runOps w (op :: ops) = runOps (WorldOp.run w op) ops := rfl
    rw [hstep]
    cases op with
    | applyForce jdx f =>
      by_cases hj : jdx = i
      · have hlen : i < w.bodies.length := (List.getElem?_eq_some.mp hb).1
        have hgd : w.bodies.getD i default = b := by
          rw [List.getD_eq_getElem?_getD, hb]; rfl
        have hrun : (WorldOp.run w (WorldOp.applyForce jdx f)).bodies[i]? = some b := by
          simp only [WorldOp.run, hj, hgd]
          rw [Body.apply_force_static _ _ hs]
          exact List.getElem?_set_self hlen
        exact ih _ i b hrun hs
      · have hrun : (WorldOp.run w (WorldOp.applyForce jdx f)).bodies[i]? = some b := by
          simp only [WorldOp.run]
          rw [List.getElem?_set_ne hj]
          exact hb
        exact ih _ i b hrun hs
    | integrate jdx dt =>
      by_cases hj : jdx = i
      · have hlen : i < w.bodies.length := (List.getElem?_eq_some.mp hb).1
        have hgd : w.bodies.getD i default = b := by
          rw [List.getD_eq_getElem?_getD, hb]; rfl
        have hrun : (WorldOp.run w (WorldOp.integrate jdx dt)).bodies[i]? = some b := by
          simp only [WorldOp.run, hj, hgd]
          rw [Body.update_static _ _ hs]
          exact List.getElem?_set_self hlen
        exact ih _ i b hrun hs
      · have hrun : (WorldOp.run w (WorldOp.integrate jdx dt)).bodies[i]? = some b := by
          simp only [WorldOp.run]
          rw [List.getElem?_set_ne hj]
          exact hb
        exact ih _ i b hrun hs
    | tick dt =>
      have hrun := update_getElem_static w dt i b hb hs
      have hs2 : ({ b with force := Vec2.zero } : Body).body_type = BodyType.static := hs
      obtain ⟨fr, hfr⟩ := ih _ i _ hrun hs2
      exact ⟨fr, hfr⟩

/-- Claim C3: a body created static keeps its position, velocity and
acceleration through any sequence of apply_force calls, direct integration
steps and World::update ticks, whatever the forces, timesteps and other
bodies are; only its force accumulator may be rewritten (to zero) by a tick. -/
theorem c3_static_invariant (w : World) (ops : List WorldOp) (i : Nat) (b0 : Body)
    (hb : w.bodies[i]? = some b0) (hs : b0.body_type = BodyType.static) :
    ∃ b1, (runOps w ops).bodies[i]? = some b1 ∧
      b1.position = b0.position ∧ b1.velocity = b0.velocity ∧
      b1.acceleration = b0.acceleration ∧ b1.body_type = BodyType.static := by
  obtain ⟨fr, hfr⟩ := runOps_getElem_static ops w i b0 hb hs
  exact ⟨_, hfr, rfl, rfl, rfl, hs⟩

/-- Witness for claim C3 at a concrete static circle, one applied force, one
tick and one direct integration step. -/
theorem c3_witness :
    ∃ b1, (runOps
        ⟨[Body.new_circle ⟨0, 0⟩ 1 (Material.new 2 (1 / 10) (7 / 10)) BodyType.static],
          ⟨0, -(981 / 100)⟩⟩
        [WorldOp.applyForce 0 ⟨3, 4⟩, WorldOp.tick 1,
          WorldOp.integrate 0 (1 / 2)]).bodies[0]? = some b1 ∧
      b1.position =
        (Body.new_circle ⟨0, 0⟩ 1 (Material.new 2 (1 / 10) (7 / 10)) BodyType.static).position ∧
      b1.velocity =
        (Body.new_circle ⟨0, 0⟩ 1 (Material.new 2 (1 / 10) (7 / 10)) BodyType.static).velocity ∧
      b1.acceleration =
        (Body.new_circle ⟨0, 0⟩ 1 (Material.new 2 (1 / 10) (7 / 10)) BodyType.static).acceleration ∧
      b1.body_type = BodyType.static :=
  c3_static_invariant _ _ 0 _ rfl rfl

theorem Vec2.mk_add_mk (a b c d : Real) : (Vec2.mk a b) + (Vec2.mk c d) = Vec2.mk (a + c) (b + d) := rfl

theorem Vec2.mk_sub_mk (a b c d : Real) : (Vec2.mk a b) - (Vec2.mk c d) = Vec2.mk (a - c) (b - d) := rfl

theorem Vec2.mk_mul (a b s : Real) : (Vec2.mk a b) * s = Vec2.mk (a * s) (b * s) := rfl

theorem Vec2.mk_div (a b s : Real) : (Vec2.mk a b) / s = Vec2.mk (a / s) (b / s) := rfl

theorem Vec2.dot_mk (a b c d : Real) : Vec2.dot (Vec2.mk a b) (Vec2.mk c d) = a * c + b * d := rfl

theorem Vec2.norm_squared_mk (a b : Real) : Vec2.norm_squared (Vec2.mk a b) = a * a + b * b := rfl

theorem Vec2.norm_mk (a b : Real) : Vec2.norm (Vec2.mk a b) = Real.sqrt (a * a + b * b) := rfl

theorem Vec2.mk_x (a b : Real) : (Vec2.mk a b).x = a := rfl

theorem Vec2.mk_y (a b : Real) : (Vec2.mk a b).y = b := rfl

theorem detect_collisions_pair (a b : Body) :
    detect_collisions [a, b] =
      if a.body_type = BodyType.static ∧ b.body_type = BodyType.static then []
      else (check_collision a b 0 1).toList := by
  by_cases hss : a.body_type = BodyType.static ∧ b.body_type = BodyType.static
  · simp [detect_collisions, List.range_succ, hss]
  · cases hc : check_collision a b 0 1 with
    | none => simp [detect_collisions, List.range_succ, hss, hc]
    | some c => simp [detect_collisions, List.range_succ, hss, hc]

theorem resolved_velocities_headon (A B : Body) (m : Real) (hm : 0 < m)
    (hva : A.velocity = ⟨1, 0⟩) (hvb : B.velocity = ⟨-1, 0⟩)
    (hta : A.body_type = BodyType.dynamic) (htb : B.body_type = BodyType.dynamic)
    (hma : A.mass = m) (hmb : B.mass = m)
    (hra : A.material.restitution = 1) (hrb : B.material.restitution = 1) :
    resolved_velocities A B ⟨1, 0⟩ = (⟨-1, 0⟩, ⟨1, 0⟩) := by
  have hm0 : m ≠ 0 := ne_of_gt hm
  simp only [resolved_velocities, hva, hvb, hta, htb, hma, hmb, hra, hrb,
    Vec2.mk_sub_mk, Vec2.dot_mk, Vec2.mk_mul, Vec2.mk_add_mk, reduceCtorEq, if_false]
  norm_num
  have hq : 4 / (m⁻¹ + m⁻¹) * m⁻¹ = 2 := by
    field_simp
    ring
  rw [hq]
  norm_num [Vec2.mk_sub_mk, Vec2.dot_mk, Vec2.norm_mk, Vec2.mk_mul, Vec2.mk_add_mk,
    friction_tolerance, Real.sqrt_zero]
  exact hm0

/-- Claim C4: two dynamic circles of radius 2 with equal materials of
restitution 1 (any positive density, any friction), one at the origin moving
right at unit speed and one at x = 3 moving left at unit speed, exchange
velocities exactly under one detect_collisions pass followed by
resolve_collisions. -/
theorem c4_velocity_exchange (d f : Real) (hd : 0 < d) :
    ((resolve_collisions
        ⟨[{ Body.new_circle ⟨0, 0⟩ 2 (Material.new d 1 f) BodyType.dynamic with velocity := ⟨1, 0⟩ },
          { Body.new_circle ⟨3, 0⟩ 2 (Material.new d 1 f) BodyType.dynamic with velocity := ⟨-1, 0⟩ }],
         ⟨0, -(981 / 100)⟩⟩
        (detect_collisions
          [{ Body.new_circle ⟨0, 0⟩ 2 (Material.new d 1 f) BodyType.dynamic with velocity := ⟨1, 0⟩ },
           { Body.new_circle ⟨3, 0⟩ 2 (Material.new d 1 f) BodyType.dynamic with velocity := ⟨-1, 0⟩ }])).bodies.map
      Body.velocity) = [⟨-1, 0⟩, ⟨1, 0⟩] := by
  set b0 : Body :=
    { Body.new_circle ⟨0, 0⟩ 2 (Material.new d 1 f) BodyType.dynamic with velocity := ⟨1, 0⟩ } with hb0
  set b1 : Body :=
    { Body.new_circle ⟨3, 0⟩ 2 (Material.new d 1 f) BodyType.dynamic with velocity := ⟨-1, 0⟩ } with hb1
  have h9 : Real.sqrt 9 = 3 := by
    rw [show (9 : ℝ) = 3 ^ 2 by norm_num]
    exact Real.sqrt_sq (by norm_num)
  have hcheck : check_collision b0 b1 0 1 = some ⟨0, 1, ⟨1, 0⟩⟩ := by
    rw [check_collision, if_pos (by norm_num : (0 : ℕ) < 1)]
    rw [hb0, hb1]
    norm_num [check_collision_ordered, Body.new_circle, Body.new, Vec2.mk_sub_mk,
      Vec2.norm_mk, Vec2.mk_div, distance_epsilon, h9]
  have hdet : detect_collisions [b0, b1] = [⟨0, 1, ⟨1, 0⟩⟩] := by
    rw [detect_collisions_pair, if_neg (by rw [hb0]; rintro ⟨h, -⟩; exact BodyType.noConfusion h),
      hcheck]
    rfl
  rw [hdet]
  have hmpos : (0 : ℝ) < Real.pi * 2 * 2 * d := by positivity
  have hrv : resolved_velocities b0 b1 ⟨1, 0⟩ = (⟨-1, 0⟩, ⟨1, 0⟩) :=
    resolved_velocities_headon b0 b1 _ hmpos rfl rfl rfl rfl rfl rfl rfl rfl
  simp only [resolve_collisions, List.foldl_cons, List.foldl_nil, resolve_one,
    List.getD_cons_zero, List.getD_cons_succ, hrv]
  rw [if_neg (by rintro ⟨h, -⟩; exact BodyType.noConfusion h)]
  simp only [List.set_cons_zero, List.set_cons_succ, List.map_cons, List.map_nil]

/-- Witness for claim C4 at density 1 and friction 0. -/
theorem c4_witness :
    (0 : ℝ) < 1 ∧
    ((resolve_collisions
        ⟨[{ Body.new_circle ⟨0, 0⟩ 2 (Material.new 1 1 0) BodyType.dynamic with velocity := ⟨1, 0⟩ },
          { Body.new_circle ⟨3, 0⟩ 2 (Material.new 1 1 0) BodyType.dynamic with velocity := ⟨-1, 0⟩ }],
         ⟨0, -(981 / 100)⟩⟩
        (detect_collisions
          [{ Body.new_circle ⟨0, 0⟩ 2 (Material.new 1 1 0) BodyType.dynamic with velocity := ⟨1, 0⟩ },
           { Body.new_circle ⟨3, 0⟩ 2 (Material.new 1 1 0) BodyType.dynamic with velocity := ⟨-1, 0⟩ }])).bodies.map
      Body.velocity) = [⟨-1, 0⟩, ⟨1, 0⟩] :=
  ⟨by norm_num, c4_velocity_exchange 1 0 (by norm_num)⟩

/-- Claim C7: for a circle-circle pair with the lower index first, a contact
record is produced exactly when the center distance is below the radius sum
and above the 1e-10 epsilon (coincident centers give no contact rather than
an error), and the reported normal is the center difference divided by the
distance, pointing from the lower-indexed body toward the higher-indexed
one. -/
theorem c7_circle_circle (a b : Body) (i j : Nat) (ra rb : Real) (c : Collision)
    (hij : i < j) (hsa : a.shape = Shape.circle ra) (hsb : b.shape = Shape.circle rb) :
    check_collision a b i j = some c ↔
      ((b.position - a.position).norm < ra + rb ∧
       distance_epsilon < (b.position - a.position).norm ∧
       c = ⟨i, j, (b.position - a.position) / (b.position - a.position).norm⟩) := by
  rw [check_collision, if_pos hij]
  simp only [check_collision_ordered, hsa, hsb]
  by_cases h : (b.position - a.position).norm < ra + rb ∧
      (b.position - a.position).norm > distance_epsilon
  · rw [if_pos h]
    constructor
    · intro hsome
      exact ⟨h.1, h.2, (Option.some.inj hsome).symm⟩
    · rintro ⟨-, -, rfl⟩
      rfl
  · rw [if_neg h]
    constructor
    · intro hnone
      exact Option.noConfusion hnone
    · rintro ⟨h1, h2, -⟩
      exact absurd ⟨h1, h2⟩ h

/-- Claim C8: for an axis-aligned rectangle-rectangle pair with the lower
index first, a contact record is produced exactly when both per-axis
overlaps (half extent sums minus the absolute center delta) are positive;
the resolution axis is the one with the smaller overlap, the y axis on a
tie, and the normal is the unit vector on that axis signed by the center
delta, positive when the delta is zero. -/
theorem c8_rect_rect (a b : Body) (i j : Nat) (w1 h1 w2 h2 : Real) (c : Collision)
    (hij : i < j) (hsa : a.shape = Shape.rectangle w1 h1)
    (hsb : b.shape = Shape.rectangle w2 h2) :
    check_collision a b i j = some c ↔
      (0 < w1 / 2 + w2 / 2 - |(b.position - a.position).x| ∧
       0 < h1 / 2 + h2 / 2 - |(b.position - a.position).y| ∧
       c = ⟨i, j,
         if w1 / 2 + w2 / 2 - |(b.position - a.position).x| <
             h1 / 2 + h2 / 2 - |(b.position - a.position).y| then
           ⟨if (b.position - a.position).x < 0 then -1 else 1, 0⟩
         else
           ⟨0, if (b.position - a.position).y < 0 then -1 else 1⟩⟩) := by
  rw [check_collision, if_pos hij]
  simp only [check_collision_ordered, hsa, hsb, Vec2.mk_add_mk, Vec2.mk_sub_mk,
    Vec2.mk_x, Vec2.mk_y, signum]
  by_cases h : w1 / 2 + w2 / 2 - |(b.position - a.position).x| > 0 ∧
      h1 / 2 + h2 / 2 - |(b.position - a.position).y| > 0
  · rw [if_pos h]
    constructor
    · intro hsome
      exact ⟨h.1, h.2, (Option.some.inj hsome).symm⟩
    · rintro ⟨-, -, rfl⟩
      rfl
  · rw [if_neg h]
    constructor
    · intro hnone
      exact Option.noConfusion hnone
    · rintro ⟨h1, h2, -⟩
      exact absurd ⟨h1, h2⟩ h

theorem calculate_circle_rectangle_collision_indices (cb rb : Body) (ci ri : Nat)
    (r w h : Real) (c : Collision)
    (hc : calculate_circle_rectangle_collision cb rb ci ri r w h = some c) :
    c.body_a = ci ∧ c.body_b = ri := by
  simp only [calculate_circle_rectangle_collision] at hc
  split at hc
  · have heq := Option.some.inj hc
    subst heq
    exact ⟨rfl, rfl⟩
  · exact Option.noConfusion hc

theorem check_collision_ordered_indices (b1 b2 : Body) (i j : Nat) (c : Collision)
    (hc : check_collision_ordered b1 b2 i j = some c) : c.body_a = i ∧ c.body_b = j := by
  unfold check_collision_ordered at hc
  cases hs1 : b1.shape with
  | circle r1 =>
    cases hs2 : b2.shape with
    | circle r2 =>
      simp only [hs1, hs2] at hc
      split at hc
      · have heq := Option.some.inj hc
        subst heq
        exact ⟨rfl, rfl⟩
      · exact Option.noConfusion hc
    | rectangle w2 h2 =>
      simp only [hs1, hs2] at hc
      exact calculate_circle_rectangle_collision_indices _ _ _ _ _ _ _ _ hc
  | rectangle w1 h1 =>
    cases hs2 : b2.shape with
    | circle r2 =>
      simp only [hs1, hs2] at hc
      rw [Option.map_eq_some'] at hc
      obtain ⟨c0, -, heq⟩ := hc
      subst heq
      exact ⟨rfl, rfl⟩
    | rectangle w2 h2 =>
      simp only [hs1, hs2] at hc
      split at hc
      · have heq := Option.some.inj hc
        subst heq
        exact ⟨rfl, rfl⟩
      · exact Option.noConfusion hc

/-- Claim C9: every record of detect_collisions has body_a strictly below
body_b and body_b within the body list, so the split_at_mut arithmetic of
resolve_collisions (split at body_a + 1, then index body_b - body_a - 1
into the second half) is in bounds and cannot panic. -/
theorem c9_record_indices (bodies : List Body) (c : Collision)
    (h : c ∈ detect_collisions bodies) :
    c.body_a < c.body_b ∧ c.body_b < bodies.length ∧
    c.body_a + 1 ≤ bodies.length ∧
    c.body_b - c.body_a - 1 < bodies.length - (c.body_a + 1) := by
  unfold detect_collisions at h
  rw [List.mem_flatten] at h
  obtain ⟨l, hl, hc⟩ := h
  rw [List.mem_map] at hl
  obtain ⟨i, hi, rfl⟩ := hl
  rw [List.mem_filterMap] at hc
  obtain ⟨j, hj, hcj⟩ := hc
  rw [List.mem_filter] at hj
  obtain ⟨hjr, hijb⟩ := hj
  rw [List.mem_range] at hjr
  have hij : i < j := by simpa using hijb
  by_cases hss : (bodies.getD i default).body_type = BodyType.static ∧
      (bodies.getD j default).body_type = BodyType.static
  · rw [if_pos hss] at hcj
    exact Option.noConfusion hcj
  · rw [if_neg hss] at hcj
    unfold check_collision at hcj
    rw [if_pos hij] at hcj
    obtain ⟨ha, hb⟩ := check_collision_ordered_indices _ _ _ _ _ hcj
    rw [ha, hb]
    omega

theorem Vec2.mul_zero (v : Vec2) : v * (0 : Real) = (⟨0, 0⟩ : Vec2) := by
  cases v
  simp [Vec2.mk_mul]

theorem Vec2.sub_zero (v : Vec2) : v - (⟨0, 0⟩ : Vec2) = v := by
  cases v
  simp [Vec2.mk_sub_mk]

theorem Vec2.add_zero (v : Vec2) : v + (⟨0, 0⟩ : Vec2) = v := by
  cases v
  simp [Vec2.mk_add_mk]

theorem clampR_zero_zero (x : Real) : clampR x 0 0 = 0 := by
  unfold clampR
  split_ifs with h1 h2
  · rfl
  · rfl
  · linarith

theorem Vec2.zero_mul (s : Real) : ((⟨0, 0⟩ : Vec2) * s) = (⟨0, 0⟩ : Vec2) := by
  simp [Vec2.mk_mul]

theorem resolved_velocities_perp (A B : Body) (n : Vec2)
    (h : (B.velocity - A.velocity).dot n = 0) :
    resolved_velocities A B n = (A.velocity, B.velocity) := by
  simp only [resolved_velocities, h]
  rw [if_neg (by norm_num : ¬(0 : ℝ) > 0)]
  by_cases htot : ((if A.body_type = BodyType.static then (0 : ℝ) else 1 / A.mass) +
      (if B.body_type = BodyType.static then (0 : ℝ) else 1 / B.mass)) = 0
  · rw [if_pos htot]
  · rw [if_neg htot]
    simp only [neg_zero, mul_zero, zero_div, Vec2.mul_zero, Vec2.zero_mul, Vec2.sub_zero,
      Vec2.add_zero, ite_self, h, abs_zero, clampR_zero_zero]

/-- Claim C10: a contact whose relative velocity is exactly perpendicular to
the normal (zero velocity along the normal) is not treated as separating,
but the normal impulse is zero and the friction impulse is clamped to the
zero Coulomb bound, so resolve_collisions leaves the world unchanged,
however large the tangential relative speed is. -/
theorem c10_perpendicular_contact (w : World) (c : Collision)
    (h : ((w.bodies.getD c.body_b default).velocity -
          (w.bodies.getD c.body_a default).velocity).dot c.normal = 0) :
    resolve_collisions w [c] = w := by
  have hro : resolve_one w.bodies c = w.bodies := by
    simp only [resolve_one]
    split
    · rfl
    · rw [resolved_velocities_perp _ _ _ h]
      exact (by rw [List.set_getD_self, List.set_getD_self] :
        (w.bodies.set c.body_a (w.bodies.getD c.body_a default)).set c.body_b
          (w.bodies.getD c.body_b default) = w.bodies)
  simp only [resolve_collisions, List.foldl_cons, List.foldl_nil, hro]

/-- Witness for claim C10: two circles moving vertically past each other
with a horizontal contact normal are left unchanged. -/
theorem c10_witness :
    resolve_collisions
      ⟨[{ Body.new_circle ⟨0, 0⟩ 2 (Material.new 1 1 1) BodyType.dynamic with velocity := ⟨0, 1⟩ },
        { Body.new_circle ⟨3, 0⟩ 2 (Material.new 1 1 1) BodyType.dynamic with velocity := ⟨0, -1⟩ }],
       ⟨0, -(981 / 100)⟩⟩
      [⟨0, 1, ⟨1, 0⟩⟩] =
    ⟨[{ Body.new_circle ⟨0, 0⟩ 2 (Material.new 1 1 1) BodyType.dynamic with velocity := ⟨0, 1⟩ },
      { Body.new_circle ⟨3, 0⟩ 2 (Material.new 1 1 1) BodyType.dynamic with velocity := ⟨0, -1⟩ }],
     ⟨0, -(981 / 100)⟩⟩ :=
  c10_perpendicular_contact _ _ (by norm_num [Vec2.mk_sub_mk, Vec2.dot_mk])

/-- Claim C1, code evaluation at the failing input: a dynamic circle of
radius 1 at x = 1.5 with index 0 against a 2 by 2 rectangle at x = 3 with
index 1 yields the record (0, 1) with normal (-1, 0): the normal points
from the rectangle toward the circle in both orders of addition (the second
conjunct swaps the roles), so in the circle-lower order it points from the
higher index toward the lower index, against the documented convention that
the normal points from body_a to body_b. -/
theorem c1_circle_lower_normal_not_flipped :
    check_collision
        (Body.new_circle ⟨3 / 2, 0⟩ 1 (Material.new 1 1 1) BodyType.dynamic)
        (Body.new_rectangle ⟨3, 0⟩ 2 2 (Material.new 1 1 1) BodyType.dynamic) 0 1
      = some ⟨0, 1, ⟨-1, 0⟩⟩ ∧
    check_collision
        (Body.new_rectangle ⟨3, 0⟩ 2 2 (Material.new 1 1 1) BodyType.dynamic)
        (Body.new_circle ⟨3 / 2, 0⟩ 1 (Material.new 1 1 1) BodyType.dynamic) 0 1
      = some ⟨0, 1, ⟨-1, 0⟩⟩ := by
  have hs4 : Real.sqrt (1 / 4) = 1 / 2 := by
    rw [show (1 / 4 : ℝ) = (1 / 2) ^ 2 by norm_num, Real.sqrt_sq (by norm_num)]
  constructor
  · rw [check_collision, if_pos (by norm_num : (0 : ℕ) < 1)]
    norm_num [check_collision_ordered, calculate_circle_rectangle_collision,
      Body.new_circle, Body.new_rectangle, Body.new, clampR, Vec2.mk_sub_mk, Vec2.mk_add_mk,
      Vec2.norm_squared_mk, Vec2.mk_div, distance_sq_epsilon, hs4]
  · rw [check_collision, if_pos (by norm_num : (0 : ℕ) < 1)]
    norm_num [check_collision_ordered, calculate_circle_rectangle_collision,
      Body.new_circle, Body.new_rectangle, Body.new, clampR, Vec2.mk_sub_mk, Vec2.mk_add_mk,
      Vec2.norm_squared_mk, Vec2.mk_div, distance_sq_epsilon, hs4]

/-- Witness for claim C7 at two overlapping circles of radius 2. -/
theorem c7_witness :
    check_collision (Body.new_circle ⟨0, 0⟩ 2 (Material.new 1 0 0) BodyType.dynamic)
        (Body.new_circle ⟨3, 0⟩ 2 (Material.new 1 0 0) BodyType.dynamic) 0 1
      = some ⟨0, 1, ⟨1, 0⟩⟩ := by
  have h9 : Real.sqrt 9 = 3 := by
    rw [show (9 : ℝ) = 3 ^ 2 by norm_num, Real.sqrt_sq (by norm_num)]
  rw [c7_circle_circle (Body.new_circle ⟨0, 0⟩ 2 (Material.new 1 0 0) BodyType.dynamic)
    (Body.new_circle ⟨3, 0⟩ 2 (Material.new 1 0 0) BodyType.dynamic) 0 1 2 2
    ⟨0, 1, ⟨1, 0⟩⟩ (by norm_num) rfl rfl]
  norm_num [Body.new_circle, Body.new, Vec2.mk_sub_mk, Vec2.norm_mk, Vec2.mk_div,
    distance_epsilon, h9]

/-- Witness for claim C8 at two overlapping 4 by 4 rectangles. -/
theorem c8_witness :
    check_collision (Body.new_rectangle ⟨0, 0⟩ 4 4 (Material.new 1 0 0) BodyType.dynamic)
        (Body.new_rectangle ⟨3, 0⟩ 4 4 (Material.new 1 0 0) BodyType.dynamic) 0 1
      = some ⟨0, 1, ⟨1, 0⟩⟩ := by
  rw [c8_rect_rect (Body.new_rectangle ⟨0, 0⟩ 4 4 (Material.new 1 0 0) BodyType.dynamic)
    (Body.new_rectangle ⟨3, 0⟩ 4 4 (Material.new 1 0 0) BodyType.dynamic) 0 1 4 4 4 4
    ⟨0, 1, ⟨1, 0⟩⟩ (by norm_num) rfl rfl]
  norm_num [Body.new_rectangle, Body.new, Vec2.mk_sub_mk, Vec2.mk_x, Vec2.mk_y]

/-- Witness for claim C9 on the record detected between two overlapping
circles. -/
theorem c9_witness :
    (⟨0, 1, ⟨1, 0⟩⟩ : Collision).body_a < (⟨0, 1, ⟨1, 0⟩⟩ : Collision).body_b ∧
    (⟨0, 1, ⟨1, 0⟩⟩ : Collision).body_b <
      ([Body.new_circle ⟨0, 0⟩ 2 (Material.new 1 0 0) BodyType.dynamic,
        Body.new_circle ⟨3, 0⟩ 2 (Material.new 1 0 0) BodyType.dynamic] : List Body).length ∧
    (⟨0, 1, ⟨1, 0⟩⟩ : Collision).body_a + 1 ≤
      ([Body.new_circle ⟨0, 0⟩ 2 (Material.new 1 0 0) BodyType.dynamic,
        Body.new_circle ⟨3, 0⟩ 2 (Material.new 1 0 0) BodyType.dynamic] : List Body).length ∧
    (⟨0, 1, ⟨1, 0⟩⟩ : Collision).body_b - (⟨0, 1, ⟨1, 0⟩⟩ : Collision).body_a - 1 <
      ([Body.new_circle ⟨0, 0⟩ 2 (Material.new 1 0 0) BodyType.dynamic,
        Body.new_circle ⟨3, 0⟩ 2 (Material.new 1 0 0) BodyType.dynamic] : List Body).length -
        ((⟨0, 1, ⟨1, 0⟩⟩ : Collision).body_a + 1) := by
  have h9 : Real.sqrt 9 = 3 := by
    rw [show (9 : ℝ) = 3 ^ 2 by norm_num, Real.sqrt_sq (by norm_num)]
  have hcheck : check_collision (Body.new_circle ⟨0, 0⟩ 2 (Material.new 1 0 0) BodyType.dynamic)
      (Body.new_circle ⟨3, 0⟩ 2 (Material.new 1 0 0) BodyType.dynamic) 0 1
      = some ⟨0, 1, ⟨1, 0⟩⟩ := by
    rw [check_collision, if_pos (by norm_num : (0 : ℕ) < 1)]
    norm_num [check_collision_ordered, Body.new_circle, Body.new, Vec2.mk_sub_mk,
      Vec2.norm_mk, Vec2.mk_div, distance_epsilon, h9]
  have hdet : detect_collisions
      [Body.new_circle ⟨0, 0⟩ 2 (Material.new 1 0 0) BodyType.dynamic,
       Body.new_circle ⟨3, 0⟩ 2 (Material.new 1 0 0) BodyType.dynamic]
      = [⟨0, 1, ⟨1, 0⟩⟩] := by
    rw [detect_collisions_pair, if_neg (by rintro ⟨h, -⟩; exact BodyType.noConfusion h), hcheck]
    rfl
  exact c9_record_indices _ ⟨0, 1, ⟨1, 0⟩⟩ (by rw [hdet]; exact List.mem_singleton.mpr rfl)
